import Mathlib

/-!
Verification development for the lobby / message-relay server
(`src/server/server.py`).  The control-plane listener (`TcpServer`), the
data-plane listener (`UdpServer`) and the dispatch function
(`TcpServer.route`) are embedded shallowly below; the identity-and-room
store (`Rooms`, imported from the `rooms` module, which is not part of the
sources) is modelled from the specification.  Each listener iteration is
embedded as a pure function producing the next store, a trace of events
(lock operations, store invocations, replies, deliveries, log lines,
closing of the connection) and the Python exception, if any, that escapes
the iteration uncaught.
-/

/-- A primitive JSON value, as found inside a request payload mapping. -/
inductive PyPrim where
  | pnone
  | pstr (s : String)
  | pint (n : Int)
  | pnats (ns : List Nat)
deriving DecidableEq, Repr

/-- A decoded JSON value bound to the `payload` field of an envelope. -/
inductive PyValue where
  | vnone
  | vstr (s : String)
  | vint (n : Int)
  | vmap (pairs : List (String × PyPrim))
deriving DecidableEq, Repr

/-- Domain errors of the store, from the `rooms` module
(`RoomNotFound`, `RoomFull`, `NotInRoom`, plus the failure of resolving an
unknown sender identity in a relay operation). -/
inductive StoreErr where
  | roomNotFound
  | roomFull
  | notInRoom
  | unknownClient
deriving DecidableEq, Repr

/-- Python exception classes that can escape a dispatch. -/
inductive PyExn where
  | keyError
  | valueError
  | typeError
  | unboundLocalError
  | attributeError
  | storeExn (e : StoreErr)
deriving DecidableEq, Repr

deriving instance DecidableEq for Except

/-- The value of a decimal digit character. -/
def digitVal? (c : Char) : Option Nat :=
  if c.isDigit then some (c.toNat - 48) else none

/-- Accumulating parse of a decimal digit run; fails on any non-digit. -/
def digitsToNat? (acc : Nat) : List Char → Option Nat
  | [] => some acc
  | c :: cs =>
      match digitVal? c with
      | some d => digitsToNat? (acc * 10 + d) cs
      | none => none

/-- The integer denoted by a decimal string (with optional leading
minus), if any. -/
def strToInt? (s : String) : Option Int :=
  match s.data with
  | [] => none
  | c :: cs =>
      if c = '-' then
        match cs with
        | [] => none
        | _ => (digitsToNat? 0 cs).map (fun n => -(n : Int))
      else (digitsToNat? 0 (c :: cs)).map (fun n => (n : Int))

/-- `int(payload)`: Python integer conversion applied to a decoded JSON
value (source line 254).  Decimal strings and integers convert; a
non-numeric string raises `ValueError`; `None` and mappings raise
`TypeError`. -/
def pyToInt : PyValue → Except PyExn Int
  | PyValue.vint n => Except.ok n
  | PyValue.vstr s =>
      match strToInt? s with
      | some n => Except.ok n
      | none => Except.error PyExn.valueError
  | PyValue.vnone => Except.error PyExn.typeError
  | PyValue.vmap _ => Except.error PyExn.typeError

/-- `payload[k]`: Python subscript on a decoded JSON value.  Missing keys
raise `KeyError`; non-mapping values raise `TypeError`. -/
def pyGet : PyValue → String → Except PyExn PyPrim
  | PyValue.vmap pairs, k =>
      match (pairs.find? (fun p => p.1 == k)).map (fun p => p.2) with
      | some v => Except.ok v
      | none => Except.error PyExn.keyError
  | PyValue.vnone, _ => Except.error PyExn.typeError
  | PyValue.vstr _, _ => Except.error PyExn.typeError
  | PyValue.vint _, _ => Except.error PyExn.typeError

/-- The natural number denoted by a non-negative integer. -/
def intToNat? : Int → Option Nat
  | Int.ofNat n => some n
  | Int.negSucc _ => none

/-- Reading a payload value as a room key (`payload in self.rooms.rooms.keys()`,
source line 271): only a non-negative integer can name a room. -/
def pyRoomKey : PyValue → Option Nat
  | PyValue.vint n => intToNat? n
  | _ => none

/-- Reading a primitive as a list of client identifiers (the
`recipients` field of a `sendto` payload). -/
def pyNats : PyPrim → Option (List Nat)
  | PyPrim.pnats ns => some ns
  | _ => none

/-- A registered client (the `Client` record of the `rooms` module).
Modelled from the spec: a session identifier, the data-plane return
address stored at registration, and at most one current room. -/
structure Client where
  identifier : Nat
  udp_addr : String × Nat
  room : Option Nat
deriving DecidableEq, Repr

/-- A room (the `Room` record of the `rooms` module).  Modelled from the
spec: a system identifier, a display name, a fixed capacity and the set
of member client identifiers. -/
structure Room where
  identifier : Nat
  name : PyValue
  capacity : Nat
  players : List Nat
deriving DecidableEq, Repr

/-- The store (the `Rooms` object of the `rooms` module).  Modelled from
the spec: the client table, the room table (kept in creation order) and
the uniform capacity fixed at construction. -/
structure Rooms where
  capacity : Nat
  rooms : List (Nat × Room)
  players : List (Nat × Client)
deriving DecidableEq, Repr

/-- Association-list lookup by key (dictionary access). -/
def assq {α : Type} (k : Nat) (xs : List (Nat × α)) : Option α :=
  (xs.find? (fun p => p.1 == k)).map (fun p => p.2)

/-- A key strictly larger than every key in use (fresh-identifier
allocation). -/
def freshKey (ks : List Nat) : Nat :=
  ks.foldr (fun k m => max (k + 1) m) 0

/-- Modelled from the spec: `register(address, capacity_hint)` allocates a
fresh session identifier, stores the caller's data-plane address and
returns the new client; it never fails. -/
def Rooms.register (st : Rooms) (addr : String × Nat) (_hint : Int) :
    Client × Rooms :=
  let cid := freshKey (st.players.map (fun p => p.1))
  (Client.mk cid addr none,
    { st with players := (cid, Client.mk cid addr none) :: st.players })

/-- Modelled from the spec: `create(name)` allocates a fresh room
identifier and inserts an empty room with the given display name and the
store's fixed capacity; it never fails. -/
def Rooms.create (st : Rooms) (name : PyValue) : Nat × Rooms :=
  let rid := freshKey (st.rooms.map (fun p => p.1))
  (rid, { st with rooms := st.rooms ++ [(rid, Room.mk rid name st.capacity [])] })

/-- Modelled from the spec: `join(client_id, room_id)` fails with
`RoomNotFound` for an unknown room and with `RoomFull` when the member
count equals the capacity; re-joining is a no-op (set semantics);
otherwise it adds the member and sets the client's room reference. -/
def Rooms.join (st : Rooms) (cid : Nat) (rid : Nat) : Except StoreErr Rooms :=
  match assq rid st.rooms with
  | none => Except.error StoreErr.roomNotFound
  | some room =>
      if room.players.length = room.capacity then Except.error StoreErr.roomFull
      else if cid ∈ room.players then Except.ok st
      else Except.ok { st with
        rooms := st.rooms.map (fun p =>
          if p.1 == rid then (p.1, { room with players := cid :: room.players }) else p),
        players := st.players.map (fun p =>
          if p.1 == cid then (p.1, { p.2 with room := some rid }) else p) }

/-- Modelled from the spec: auto-join scans the rooms in creation order
for the first with free capacity and joins it; when none has free
capacity it creates a new room and joins that; it never fails by
capacity and returns the resolved room identifier. -/
def Rooms.autojoin (st : Rooms) (cid : Nat) : Nat × Rooms :=
  match st.rooms.find? (fun p => decide (p.2.players.length < p.2.capacity)) with
  | some pr =>
      match st.join cid pr.1 with
      | Except.ok st2 => (pr.1, st2)
      | Except.error _ => (pr.1, st)
  | none =>
      let rid := freshKey (st.rooms.map (fun p => p.1))
      (rid, { st with
        rooms := st.rooms ++ [(rid, Room.mk rid PyValue.vnone st.capacity [cid])],
        players := st.players.map (fun p =>
          if p.1 == cid then (p.1, { p.2 with room := some rid }) else p) })

/-- Modelled from the spec: `leave(client_id, room_id)` fails with
`RoomNotFound` for an unknown room and with `NotInRoom` when the client
is not a member; on success it removes the membership and clears the
client's room reference. -/
def Rooms.leave (st : Rooms) (cid : Nat) (rid : Nat) : Except StoreErr Rooms :=
  match assq rid st.rooms with
  | none => Except.error StoreErr.roomNotFound
  | some room =>
      if cid ∈ room.players then
        Except.ok { st with
          rooms := st.rooms.map (fun p =>
            if p.1 == rid then (p.1, { room with players := room.players.erase cid }) else p),
          players := st.players.map (fun p =>
            if p.1 == cid then (p.1, { p.2 with room := none }) else p) }
      else Except.error StoreErr.notInRoom

/-- Modelled from the spec: `send(sender_id, room_id, message, transport)`
resolves the sender's membership (which must match `room_id`) and
delivers the message to every *other* member's stored data-plane
address; members without a client record are silently skipped. -/
def Rooms.send (st : Rooms) (sid : Nat) (rid : Nat) (m : PyPrim) :
    Except StoreErr (List ((String × Nat) × PyPrim)) :=
  match assq sid st.players with
  | none => Except.error StoreErr.unknownClient
  | some c =>
      if c.room = some rid then
        match assq rid st.rooms with
        | none => Except.error StoreErr.roomNotFound
        | some room =>
            Except.ok ((room.players.filter (fun pid => ! (pid == sid))).filterMap
              (fun pid => (assq pid st.players).map (fun p => (p.udp_addr, m))))
      else Except.error StoreErr.notInRoom

/-- Modelled from the spec: `sendto` restricts delivery to the
intersection of the recipient list and the other members of the room;
recipients outside the room are ignored, not errored. -/
def Rooms.sendto (st : Rooms) (sid : Nat) (rid : Nat) (recips : List Nat)
    (m : PyPrim) : Except StoreErr (List ((String × Nat) × PyPrim)) :=
  match assq sid st.players with
  | none => Except.error StoreErr.unknownClient
  | some c =>
      if c.room = some rid then
        match assq rid st.rooms with
        | none => Except.error StoreErr.roomNotFound
        | some room =>
            Except.ok ((room.players.filter
                (fun pid => ! (pid == sid) && recips.contains pid)).filterMap
              (fun pid => (assq pid st.players).map (fun p => (p.udp_addr, m))))
      else Except.error StoreErr.notInRoom

/-- Modelled from the spec: `remove_empty()` deletes every room whose
member set is empty. -/
def Rooms.remove_empty (st : Rooms) : Rooms :=
  { st with rooms := st.rooms.filter (fun p => ! p.2.players.isEmpty) }

/-- A row of the `get_rooms` snapshot (source lines 283-288). -/
structure RoomInfo where
  id : Nat
  name : PyValue
  nb_players : Nat
  capacity : Nat
deriving DecidableEq, Repr

/-- The message part of a control-plane reply (`client.send_tcp`). -/
inductive ReplyMsg where
  | rnone
  | rnat (n : Nat)
  | rpy (v : PyValue)
  | rrooms (xs : List RoomInfo)
deriving DecidableEq, Repr

/-- The reply message standing for an optional room identifier (the
`room_id` argument handed to `client.send_tcp`). -/
def rmsgOfOpt : Option Nat → ReplyMsg
  | none => ReplyMsg.rnone
  | some n => ReplyMsg.rnat n

/-- An observable step of a listener iteration: lock operations, store
invocations, control-plane replies, raw socket sends, console log lines,
data-plane deliveries and closing the accepted connection. -/
inductive Event where
  | lockAcquire
  | lockRelease
  | storeMutation (name : String)
  | sendTcp (success : Bool) (message : ReplyMsg)
  | sockSend (text : String)
  | logMsg (text : String)
  | deliver (dest : String × Nat) (message : PyPrim)
  | connClose
deriving DecidableEq, Repr

/-- The result of `TcpServer.route`: the store after dispatch, the events
it produced, and the Python exception escaping it, if any. -/
structure RouteResult where
  store : Rooms
  events : List Event
  raised : Option PyExn
deriving DecidableEq, Repr

/-- Source lines 253-256: the `register` branch of `TcpServer.route`.
`int(payload)` is evaluated first and may raise; on success the store
registers the caller's address and the new identifier is replied. -/
def routeRegister (st : Rooms) (addr : String × Nat) (payload : PyValue) :
    RouteResult :=
  match pyToInt payload with
  | Except.error e => RouteResult.mk st [] (some e)
  | Except.ok hint =>
      let pr := st.register addr hint
      RouteResult.mk pr.2
        [Event.storeMutation "register",
         Event.sendTcp true (ReplyMsg.rnat pr.1.identifier)] none

/-- Source lines 269-278: the `join` branch.  An unknown (or non-key)
payload raises `RoomNotFound`, caught and answered with a failure reply
carrying the request's `room_id` field; `RoomFull` from the store is
answered the same way; success echoes the payload. -/
def routeJoin (st : Rooms) (cid : Nat) (payload : PyValue)
    (room_id : Option Nat) : RouteResult :=
  match pyRoomKey payload with
  | none => RouteResult.mk st [Event.sendTcp false (rmsgOfOpt room_id)] none
  | some prid =>
      if (assq prid st.rooms).isNone then
        RouteResult.mk st [Event.sendTcp false (rmsgOfOpt room_id)] none
      else
        match st.join cid prid with
        | Except.ok st2 =>
            RouteResult.mk st2
              [Event.storeMutation "join", Event.sendTcp true (ReplyMsg.rpy payload)] none
        | Except.error StoreErr.roomFull =>
            RouteResult.mk st
              [Event.storeMutation "join", Event.sendTcp false (rmsgOfOpt room_id)] none
        | Except.error StoreErr.roomNotFound =>
            RouteResult.mk st
              [Event.storeMutation "join", Event.sendTcp false (rmsgOfOpt room_id)] none
        | Except.error e =>
            RouteResult.mk st [Event.storeMutation "join"] (some (PyExn.storeExn e))

/-- Source lines 279-281: the `autojoin` branch. -/
def routeAutojoin (st : Rooms) (cid : Nat) : RouteResult :=
  let pr := st.autojoin cid
  RouteResult.mk pr.2
    [Event.storeMutation "join", Event.sendTcp true (ReplyMsg.rnat pr.1)] none

/-- Source lines 282-289: the `get_rooms` branch (a read-only snapshot). -/
def routeGetRooms (st : Rooms) : RouteResult :=
  RouteResult.mk st
    [Event.sendTcp true (ReplyMsg.rrooms (st.rooms.map
      (fun p => RoomInfo.mk p.1 p.2.name p.2.players.length p.2.capacity)))] none

/-- Source lines 290-293: the `create` branch; the creator auto-joins the
new room.  A `RoomFull` from that join (capacity zero) is uncaught. -/
def routeCreate (st : Rooms) (cid : Nat) (payload : PyValue) : RouteResult :=
  match st.create payload with
  | (rid, st1) =>
      match st1.join cid rid with
      | Except.ok st2 =>
          RouteResult.mk st2
            [Event.storeMutation "create", Event.storeMutation "join",
             Event.sendTcp true (ReplyMsg.rnat rid)] none
      | Except.error e =>
          RouteResult.mk st1
            [Event.storeMutation "create", Event.storeMutation "join"]
            (some (PyExn.storeExn e))

/-- Source lines 294-303: the `leave` branch.  The unknown-room check
replies a failure; past it the source evaluates `rooms.leave(...)`, but
`rooms` is a local name only ever assigned in the `get_rooms` branch, so
the reference raises `UnboundLocalError` before any store call. -/
def routeLeave (st : Rooms) (room_id : Option Nat) : RouteResult :=
  match room_id with
  | none => RouteResult.mk st [Event.sendTcp false ReplyMsg.rnone] none
  | some rid =>
      if (assq rid st.rooms).isNone then
        RouteResult.mk st [Event.sendTcp false (ReplyMsg.rnat rid)] none
      else
        RouteResult.mk st [] (some PyExn.unboundLocalError)

/-- Source lines 243-306: `TcpServer.route`.  `register` is dispatched
without an identity check; any other action with an absent identifier
falls through with no reply; a present but unregistered identifier is
answered with a failure reply before dispatch; the unknown-action arm
calls `sock.send_tcp`, a method sockets do not have, raising
`AttributeError`. -/
def route (st : Rooms) (addr : String × Nat) (action : Option String)
    (payload : PyValue) (identifier : Option Nat) (room_id : Option Nat) :
    RouteResult :=
  if action = some "register" then routeRegister st addr payload
  else
    match identifier with
    | none => RouteResult.mk st [] none
    | some cid =>
        if (assq cid st.players).isNone then
          RouteResult.mk st [Event.sockSend "Unknown identifier"] none
        else if action = some "join" then routeJoin st cid payload room_id
        else if action = some "autojoin" then routeAutojoin st cid
        else if action = some "get_rooms" then routeGetRooms st
        else if action = some "create" then routeCreate st cid payload
        else if action = some "leave" then routeLeave st room_id
        else RouteResult.mk st [] (some PyExn.attributeError)

/-- What one received message decodes to: not JSON at all (`json.loads`
raises `ValueError`), valid JSON that is not a mapping (the later
subscripts raise `TypeError`), or a mapping read as an envelope whose
recognized fields default to `None` when absent. -/
inductive WireMsg where
  | notJson
  | jsonNonDict
  | envelope (action : Option String) (identifier : Option Nat)
      (room_id : Option Nat) (payload : PyValue)
deriving DecidableEq, Repr

/-- The result of one listener iteration. -/
structure IterResult where
  store : Rooms
  events : List Event
  raised : Option PyExn
deriving DecidableEq, Repr

/-- The event trace of a lock-guarded section: prefix events, then
`acquire`, the guarded events, `release` (in a `finally`), then the
events after the guarded section. -/
def wrapLocked (ev0 : List Event) (inner : List Event) (tail : List Event) :
    List Event :=
  ev0 ++ Event.lockAcquire :: (inner ++ Event.lockRelease :: tail)

/-- Source lines 222-239: the fate of one dispatched request given what
`route` raised.  `KeyError` and `ValueError` are answered on the socket
and the connection is closed; any other escaping exception class skips
`conn.close()` and kills the listener thread. -/
def tcpDispatch (ev0 : List Event) (r : RouteResult) : IterResult :=
  match r.raised with
  | none => IterResult.mk r.store (wrapLocked ev0 r.events [Event.connClose]) none
  | some PyExn.keyError =>
      IterResult.mk r.store
        (wrapLocked ev0 r.events [Event.sockSend "Json is not valid", Event.connClose]) none
  | some PyExn.valueError =>
      IterResult.mk r.store
        (wrapLocked ev0 r.events
          [Event.sockSend "Message is not a valid json string", Event.connClose]) none
  | some e => IterResult.mk r.store (wrapLocked ev0 r.events []) (some e)

/-- The part of a `TcpServer.run` iteration after the sweep check:
decode, dispatch under the lock, answer `KeyError` / `ValueError`, close
the connection unless another exception class escapes.  `st0` and `ev0`
are the store and the events after the sweep check. -/
def tcpIterCore (st0 : Rooms) (ev0 : List Event) (addr : String × Nat)
    (msg : WireMsg) : IterResult :=
  match msg with
  | WireMsg.notJson =>
      IterResult.mk st0
        (ev0 ++ [Event.sockSend "Message is not a valid json string", Event.connClose]) none
  | WireMsg.jsonNonDict => IterResult.mk st0 ev0 (some PyExn.typeError)
  | WireMsg.envelope act idf rid pay =>
      match act with
      | none =>
          IterResult.mk st0 (ev0 ++ [Event.sockSend "Json is not valid", Event.connClose]) none
      | some a => tcpDispatch ev0 (route st0 addr (some a) pay idf rid)

/-- Source lines 190-239: one iteration of the `TcpServer.run` accept
loop handling one connection.  When the sweep interval has elapsed
(`sweepDue`), `remove_empty` runs first — outside the lock; the request
is then decoded and dispatched under the lock. -/
def tcpIter (sweepDue : Bool) (st : Rooms) (addr : String × Nat)
    (msg : WireMsg) : IterResult :=
  tcpIterCore (if sweepDue then st.remove_empty else st)
    (if sweepDue then [Event.storeMutation "remove_empty"] else []) addr msg

/-- Source lines 128-148: the lock-guarded action dispatch of
`UdpServer.run`.  The payload subscripts are evaluated before the relay
call; every exception of the relay call itself is swallowed by a blanket
`except: pass`.  Deliveries are the datagrams the relay sends. -/
def udpInner (st : Rooms) (act : Option String) (idf : Option Nat) (r : Nat)
    (pay : PyValue) : List Event :=
  if act = some "send" then
    match pyGet pay "message" with
    | Except.error _ => []
    | Except.ok m =>
        Event.storeMutation "send" ::
        (match idf with
         | none => []
         | some sid =>
             match st.send sid r m with
             | Except.error _ => []
             | Except.ok ds => ds.map (fun d => Event.deliver d.1 d.2))
  else if act = some "sendto" then
    match pyGet pay "recipients", pyGet pay "message" with
    | Except.ok rv, Except.ok m =>
        Event.storeMutation "sendto" ::
        (match idf, pyNats rv with
         | some sid, some recips =>
             (match st.sendto sid r recips m with
              | Except.error _ => []
              | Except.ok ds => ds.map (fun d => Event.deliver d.1 d.2))
         | _, _ => [])
    | _, _ => []
  else []

/-- Source lines 97-155: one iteration of the `UdpServer.run` receive
loop handling one datagram.  An unknown (or absent) room is logged and
dropped before the lock; valid JSON that is not a mapping raises an
uncaught `TypeError`; otherwise the dispatch runs under the lock and no
reply is ever produced for the source address. -/
def udpIter (st : Rooms) (src : String × Nat) (msg : WireMsg) : IterResult :=
  match msg with
  | WireMsg.notJson =>
      IterResult.mk st [Event.logMsg "Message is not a valid json string"] none
  | WireMsg.jsonNonDict => IterResult.mk st [] (some PyExn.typeError)
  | WireMsg.envelope act idf rid pay =>
      match rid with
      | none => IterResult.mk st [Event.logMsg "Room not found"] none
      | some r =>
          if (assq r st.rooms).isNone then
            IterResult.mk st [Event.logMsg "Room not found"] none
          else
            IterResult.mk st (wrapLocked [] (udpInner st act idf r pay) []) none

/-- The states of the store reachable from a freshly constructed server:
any interleaving of control-plane iterations (with or without the sweep)
and data-plane iterations. -/
inductive Reachable (cap : Nat) : Rooms → Prop where
  | init : Reachable cap (Rooms.mk cap [] [])
  | tcpStep : ∀ sweepDue st addr msg, Reachable cap st →
      Reachable cap (tcpIter sweepDue st addr msg).store
  | udpStep : ∀ st src msg, Reachable cap st →
      Reachable cap (udpIter st src msg).store

/-- Events that neither touch the lock nor close the connection (store
invocations, replies, raw sends, log lines, deliveries). -/
def plainEvent : Event → Bool
  | Event.lockAcquire => false
  | Event.lockRelease => false
  | Event.connClose => false
  | Event.storeMutation _ => true
  | Event.sendTcp _ _ => true
  | Event.sockSend _ => true
  | Event.logMsg _ => true
  | Event.deliver _ _ => true

/-- The names of the store invocations performed while the lock is not
held (`d` is the lock depth at the head of the list). -/
def mutationsOutsideLock (d : Nat) : List Event → List String
  | [] => []
  | Event.lockAcquire :: es => mutationsOutsideLock (d + 1) es
  | Event.lockRelease :: es => mutationsOutsideLock (d - 1) es
  | Event.storeMutation n :: es =>
      if d = 0 then n :: mutationsOutsideLock d es else mutationsOutsideLock d es
  | Event.sendTcp _ _ :: es => mutationsOutsideLock d es
  | Event.sockSend _ :: es => mutationsOutsideLock d es
  | Event.logMsg _ :: es => mutationsOutsideLock d es
  | Event.deliver _ _ :: es => mutationsOutsideLock d es
  | Event.connClose :: es => mutationsOutsideLock d es

/-- The lock depth after a trace, starting from depth `d`; `none` when a
release occurs with the lock not held. -/
def lockScan (d : Nat) : List Event → Option Nat
  | [] => some d
  | Event.lockAcquire :: es => lockScan (d + 1) es
  | Event.lockRelease :: es => if d = 0 then none else lockScan (d - 1) es
  | Event.storeMutation _ :: es => lockScan d es
  | Event.sendTcp _ _ :: es => lockScan d es
  | Event.sockSend _ :: es => lockScan d es
  | Event.logMsg _ :: es => lockScan d es
  | Event.deliver _ _ :: es => lockScan d es
  | Event.connClose :: es => lockScan d es

/-- The log line carried by an event, if it is a log event. -/
def logOf : Event → Option String
  | Event.logMsg s => some s
  | Event.lockAcquire => none
  | Event.lockRelease => none
  | Event.storeMutation _ => none
  | Event.sendTcp _ _ => none
  | Event.sockSend _ => none
  | Event.deliver _ _ => none
  | Event.connClose => none

/-- The console log lines of a trace. -/
def logsOf (es : List Event) : List String := es.filterMap logOf

/-- The delivery carried by an event, if it is a delivery. -/
def deliverOf : Event → Option ((String × Nat) × PyPrim)
  | Event.deliver a m => some (a, m)
  | Event.lockAcquire => none
  | Event.lockRelease => none
  | Event.storeMutation _ => none
  | Event.sendTcp _ _ => none
  | Event.sockSend _ => none
  | Event.logMsg _ => none
  | Event.connClose => none

/-- The data-plane deliveries of a trace. -/
def deliveries (es : List Event) : List ((String × Nat) × PyPrim) :=
  es.filterMap deliverOf

/-- `true` when the event is not a delivery to the address `src`. -/
def avoidsAddr (src : String × Nat) : Event → Bool
  | Event.deliver a _ => a != src
  | Event.lockAcquire => true
  | Event.lockRelease => true
  | Event.storeMutation _ => true
  | Event.sendTcp _ _ => true
  | Event.sockSend _ => true
  | Event.logMsg _ => true
  | Event.connClose => true

/-- `true` when no delivery of the trace targets the address `src`. -/
def deliversAvoid (src : String × Nat) (es : List Event) : Bool :=
  es.all (avoidsAddr src)

/-- Events that do not touch the lock. -/
def noLockEvent : Event → Bool
  | Event.lockAcquire => false
  | Event.lockRelease => false
  | Event.storeMutation _ => true
  | Event.sendTcp _ _ => true
  | Event.sockSend _ => true
  | Event.logMsg _ => true
  | Event.deliver _ _ => true
  | Event.connClose => true

/-- Well-formedness of a store built with capacity `cap`: the capacity
field is `cap`, every room carries that same capacity, and no room holds
more members than it. -/
def storeWF (cap : Nat) (st : Rooms) : Prop :=
  st.capacity = cap ∧ ∀ p ∈ st.rooms, p.2.capacity = cap ∧ p.2.players.length ≤ cap

def c1Msg1 : WireMsg := WireMsg.envelope (some "register") none none (PyValue.vint 4)

def c1Msg2 : WireMsg := WireMsg.envelope (some "create") (some 0) none (PyValue.vstr "r")

def c1Msg3 : WireMsg := WireMsg.envelope (some "register") none none (PyValue.vint 4)

def c1St1 : Rooms := (tcpIter false (Rooms.mk 1 [] []) ("h", 0) c1Msg1).store

def c1St2 : Rooms := (tcpIter false c1St1 ("h", 0) c1Msg2).store

def c1St3 : Rooms := (tcpIter false c1St2 ("h", 0) c1Msg3).store

def c8St : Rooms :=
  Rooms.mk 2 [(0, Room.mk 0 (PyValue.vstr "r") 2 [0, 1])]
    [(0, Client.mk 0 ("a", 1) (some 0)), (1, Client.mk 1 ("b", 2) (some 0))]

def c8Pay : PyValue := PyValue.vmap [("message", PyPrim.pstr "hi")]

def c9St : Rooms :=
  Rooms.mk 1 [(0, Room.mk 0 (PyValue.vstr "r") 1 [0])]
    [(0, Client.mk 0 ("a", 1) (some 0))]

def c9Pay : PyValue := PyValue.vmap [("message", PyPrim.pstr "hi")]

theorem plain_mutationsOutsideLock {es : List Event} (h : es.all plainEvent = true)
    {d : Nat} (hd : d ≠ 0) (ys : List Event) :
    mutationsOutsideLock d (es ++ ys) = mutationsOutsideLock d ys := by
  induction es with
  | nil => rfl
  | cons e es ih =>
      simp only [List.all_cons, Bool.and_eq_true] at h
      cases e with
      | lockAcquire => simp [plainEvent] at h
      | lockRelease => simp [plainEvent] at h
      | connClose => simp [plainEvent] at h
      | storeMutation n =>
          simp only [List.cons_append, mutationsOutsideLock, if_neg hd]
          exact ih h.2
      | sendTcp b m =>
          simp only [List.cons_append, mutationsOutsideLock]; exact ih h.2
      | sockSend t =>
          simp only [List.cons_append, mutationsOutsideLock]; exact ih h.2
      | logMsg t =>
          simp only [List.cons_append, mutationsOutsideLock]; exact ih h.2
      | deliver a m =>
          simp only [List.cons_append, mutationsOutsideLock]; exact ih h.2

theorem plain_mutationsOutsideLock_zero {es : List Event}
    (h : es.all plainEvent = true) (ys : List Event) :
    mutationsOutsideLock 0 (es ++ ys) =
      mutationsOutsideLock 0 es ++ mutationsOutsideLock 0 ys := by
  induction es with
  | nil => rfl
  | cons e es ih =>
      simp only [List.all_cons, Bool.and_eq_true] at h
      cases e with
      | lockAcquire => simp [plainEvent] at h
      | lockRelease => simp [plainEvent] at h
      | connClose => simp [plainEvent] at h
      | storeMutation n =>
          simp only [List.cons_append, mutationsOutsideLock]
          simp [ih h.2]
      | sendTcp b m =>
          simp only [List.cons_append, mutationsOutsideLock]; exact ih h.2
      | sockSend t =>
          simp only [List.cons_append, mutationsOutsideLock]; exact ih h.2
      | logMsg t =>
          simp only [List.cons_append, mutationsOutsideLock]; exact ih h.2
      | deliver a m =>
          simp only [List.cons_append, mutationsOutsideLock]; exact ih h.2

theorem plain_lockScan {es : List Event} (h : es.all plainEvent = true)
    (d : Nat) (ys : List Event) :
    lockScan d (es ++ ys) = lockScan d ys := by
  induction es with
  | nil => rfl
  | cons e es ih =>
      simp only [List.all_cons, Bool.and_eq_true] at h
      cases e with
      | lockAcquire => simp [plainEvent] at h
      | lockRelease => simp [plainEvent] at h
      | connClose => simp [plainEvent] at h
      | storeMutation n =>
          simp only [List.cons_append, lockScan]; exact ih h.2
      | sendTcp b m =>
          simp only [List.cons_append, lockScan]; exact ih h.2
      | sockSend t =>
          simp only [List.cons_append, lockScan]; exact ih h.2
      | logMsg t =>
          simp only [List.cons_append, lockScan]; exact ih h.2
      | deliver a m =>
          simp only [List.cons_append, lockScan]; exact ih h.2

theorem plain_lockScan_nil {es : List Event} (h : es.all plainEvent = true)
    (d : Nat) : lockScan d es = some d := by
  have := plain_lockScan h d []
  simpa using this

theorem plain_not_connClose {es : List Event} (h : es.all plainEvent = true) :
    Event.connClose ∉ es := by
  intro hmem
  have := List.all_eq_true.1 h _ hmem
  simp [plainEvent] at this

theorem mutationsOutsideLock_wrapLocked {ev0 inner tail : List Event}
    (h0 : ev0.all plainEvent = true) (hi : inner.all plainEvent = true) :
    mutationsOutsideLock 0 (wrapLocked ev0 inner tail) =
      mutationsOutsideLock 0 ev0 ++ mutationsOutsideLock 0 tail := by
  unfold wrapLocked
  rw [plain_mutationsOutsideLock_zero h0]
  simp only [mutationsOutsideLock]
  rw [plain_mutationsOutsideLock hi (by decide)]
  simp [mutationsOutsideLock]

theorem plain_all_noLock {es : List Event} (h : es.all plainEvent = true) :
    es.all noLockEvent = true := by
  rw [List.all_eq_true] at h
  rw [List.all_eq_true]
  intro e he
  have hp := h e he
  cases e <;> first | rfl | (simp [plainEvent] at hp)

theorem noLock_lockScan {es : List Event} (h : es.all noLockEvent = true)
    (d : Nat) (ys : List Event) : lockScan d (es ++ ys) = lockScan d ys := by
  induction es with
  | nil => rfl
  | cons e es ih =>
      simp only [List.all_cons, Bool.and_eq_true] at h
      cases e with
      | lockAcquire => simp [noLockEvent] at h
      | lockRelease => simp [noLockEvent] at h
      | connClose => simp only [List.cons_append, lockScan]; exact ih h.2
      | storeMutation n => simp only [List.cons_append, lockScan]; exact ih h.2
      | sendTcp b m => simp only [List.cons_append, lockScan]; exact ih h.2
      | sockSend t => simp only [List.cons_append, lockScan]; exact ih h.2
      | logMsg t => simp only [List.cons_append, lockScan]; exact ih h.2
      | deliver a m => simp only [List.cons_append, lockScan]; exact ih h.2

theorem noLock_lockScan_nil {es : List Event} (h : es.all noLockEvent = true)
    (d : Nat) : lockScan d es = some d := by
  have := noLock_lockScan h d []
  simpa using this

theorem lockScan_wrapLocked {ev0 inner tail : List Event}
    (h0 : ev0.all noLockEvent = true) (hi : inner.all noLockEvent = true)
    (ht : tail.all noLockEvent = true) :
    lockScan 0 (wrapLocked ev0 inner tail) = some 0 := by
  unfold wrapLocked
  rw [noLock_lockScan h0]
  show lockScan 1 (inner ++ Event.lockRelease :: tail) = some 0
  rw [noLock_lockScan hi]
  show lockScan 0 tail = some 0
  exact noLock_lockScan_nil ht 0

theorem connClose_mem_wrapLocked {ev0 inner tail : List Event} :
    Event.connClose ∈ wrapLocked ev0 inner tail ↔
      Event.connClose ∈ ev0 ∨ Event.connClose ∈ inner ∨ Event.connClose ∈ tail := by
  unfold wrapLocked
  simp [List.mem_append, List.mem_cons]

theorem routeRegister_plain (st : Rooms) (addr : String × Nat) (payload : PyValue) :
    (routeRegister st addr payload).events.all plainEvent = true := by
  unfold routeRegister
  split <;> rfl

theorem routeJoin_plain (st : Rooms) (cid : Nat) (payload : PyValue)
    (room_id : Option Nat) :
    (routeJoin st cid payload room_id).events.all plainEvent = true := by
  unfold routeJoin
  split
  · rfl
  · split
    · rfl
    · split <;> rfl

theorem routeAutojoin_plain (st : Rooms) (cid : Nat) :
    (routeAutojoin st cid).events.all plainEvent = true := rfl

theorem routeGetRooms_plain (st : Rooms) :
    (routeGetRooms st).events.all plainEvent = true := rfl

theorem routeCreate_plain (st : Rooms) (cid : Nat) (payload : PyValue) :
    (routeCreate st cid payload).events.all plainEvent = true := by
  unfold routeCreate
  split
  split <;> rfl

theorem routeLeave_plain (st : Rooms) (room_id : Option Nat) :
    (routeLeave st room_id).events.all plainEvent = true := by
  unfold routeLeave
  split
  · rfl
  · split <;> rfl

theorem route_plain (st : Rooms) (addr : String × Nat) (action : Option String)
    (payload : PyValue) (identifier : Option Nat) (room_id : Option Nat) :
    (route st addr action payload identifier room_id).events.all plainEvent = true := by
  unfold route
  split
  · exact routeRegister_plain st addr payload
  · split
    · rfl
    · split
      · rfl
      · split
        · exact routeJoin_plain _ _ _ _
        · split
          · exact routeAutojoin_plain _ _
          · split
            · exact routeGetRooms_plain _
            · split
              · exact routeCreate_plain _ _ _
              · split
                · exact routeLeave_plain _ _
                · rfl

theorem delivers_map_plain (ds : List ((String × Nat) × PyPrim)) :
    (ds.map (fun d => Event.deliver d.1 d.2)).all plainEvent = true := by
  induction ds with
  | nil => rfl
  | cons d ds ih =>
      simp only [List.map_cons, List.all_cons, Bool.and_eq_true]
      exact ⟨rfl, ih⟩

theorem udpInner_plain (st : Rooms) (act : Option String) (idf : Option Nat)
    (r : Nat) (pay : PyValue) :
    (udpInner st act idf r pay).all plainEvent = true := by
  unfold udpInner
  split
  · split
    · rfl
    · simp only [List.all_cons, Bool.and_eq_true]
      refine ⟨rfl, ?_⟩
      split
      · rfl
      · split
        · rfl
        · exact delivers_map_plain _
  · split
    · split
      · simp only [List.all_cons, Bool.and_eq_true]
        refine ⟨rfl, ?_⟩
        split
        · split
          · rfl
          · exact delivers_map_plain _
        · rfl
      · rfl
    · rfl

theorem assq_mem {α : Type} {k : Nat} {xs : List (Nat × α)} {v : α}
    (h : assq k xs = some v) : (k, v) ∈ xs := by
  unfold assq at h
  rcases Option.map_eq_some'.1 h with ⟨p, hfind, hv⟩
  have hk : p.1 = k := by
    have := List.find?_some hfind
    simpa using this
  have hmem := List.mem_of_find?_eq_some hfind
  have hpk : p = (k, v) := by
    cases p
    simp only at hk hv
    simp [hk, hv]
  rwa [hpk] at hmem

theorem assq_eq_none_of_not_mem {α : Type} {k : Nat} {xs : List (Nat × α)}
    (h : k ∉ xs.map (fun p => p.1)) : assq k xs = none := by
  unfold assq
  have hfind : xs.find? (fun p => p.1 == k) = none := by
    rw [List.find?_eq_none]
    intro p hp hbeq
    exact h (List.mem_map.2 ⟨p, hp, by simpa using hbeq⟩)
  rw [hfind]
  rfl

theorem freshKey_cons (a : Nat) (ks : List Nat) :
    freshKey (a :: ks) = max (a + 1) (freshKey ks) := rfl

theorem lt_freshKey {ks : List Nat} {k : Nat} (h : k ∈ ks) : k < freshKey ks := by
  induction ks with
  | nil => cases h
  | cons a ks ih =>
      rw [freshKey_cons]
      rcases List.mem_cons.1 h with rfl | h2
      · exact Nat.lt_of_lt_of_le (Nat.lt_succ_self k) (le_max_left _ _)
      · exact Nat.lt_of_lt_of_le (ih h2) (le_max_right _ _)

theorem freshKey_not_mem (ks : List Nat) : freshKey ks ∉ ks :=
  fun h => absurd (lt_freshKey h) (lt_irrefl _)

theorem assq_freshKey {α : Type} (xs : List (Nat × α)) :
    assq (freshKey (xs.map (fun p => p.1))) xs = none :=
  assq_eq_none_of_not_mem (freshKey_not_mem _)

theorem wf_register {cap : Nat} {st : Rooms} (hwf : storeWF cap st)
    (addr : String × Nat) (hint : Int) :
    storeWF cap (st.register addr hint).2 :=
  ⟨hwf.1, hwf.2⟩

theorem wf_create {cap : Nat} {st : Rooms} (hwf : storeWF cap st)
    (name : PyValue) : storeWF cap (st.create name).2 := by
  refine ⟨hwf.1, ?_⟩
  intro p hp
  rcases List.mem_append.1 hp with h1 | h2
  · exact hwf.2 p h1
  · simp only [List.mem_singleton] at h2
    subst h2
    exact ⟨hwf.1, Nat.zero_le _⟩

theorem wf_join {cap : Nat} {st st2 : Rooms} {cid rid : Nat}
    (hwf : storeWF cap st) (h : st.join cid rid = Except.ok st2) :
    storeWF cap st2 := by
  unfold Rooms.join at h
  split at h
  · exact absurd h (by simp)
  · rename_i room hroom
    split at h
    · exact absurd h (by simp)
    · rename_i hnfull
      split at h
      · cases h; exact hwf
      · cases h
        refine ⟨hwf.1, ?_⟩
        intro p hp
        rcases List.mem_map.1 hp with ⟨q, hq, rfl⟩
        have hr := hwf.2 _ (assq_mem hroom)
        split
        · refine ⟨hr.1, ?_⟩
          simp only [List.length_cons]
          have : room.players.length < cap := by
            rcases Nat.lt_or_ge room.players.length cap with hlt | hge
            · exact hlt
            · exact absurd (le_antisymm hr.2 hge) (by rw [hr.1] at hnfull; exact hnfull)
          exact this
        · exact hwf.2 q hq

theorem wf_autojoin {cap : Nat} {st : Rooms} (hcap : 1 ≤ cap)
    (hwf : storeWF cap st) (cid : Nat) :
    storeWF cap (st.autojoin cid).2 := by
  unfold Rooms.autojoin
  split
  · split
    · rename_i st2 hj
      exact wf_join hwf hj
    · exact hwf
  · refine ⟨hwf.1, ?_⟩
    intro p hp
    rcases List.mem_append.1 hp with h1 | h2
    · exact hwf.2 p h1
    · simp only [List.mem_singleton] at h2
      subst h2
      exact ⟨hwf.1, by simpa [hwf.1] using hcap⟩

theorem wf_leave {cap : Nat} {st st2 : Rooms} {cid rid : Nat}
    (hwf : storeWF cap st) (h : st.leave cid rid = Except.ok st2) :
    storeWF cap st2 := by
  unfold Rooms.leave at h
  split at h
  · exact absurd h (by simp)
  · rename_i room hroom
    split at h
    · cases h
      refine ⟨hwf.1, ?_⟩
      intro p hp
      rcases List.mem_map.1 hp with ⟨q, hq, rfl⟩
      have hr := hwf.2 _ (assq_mem hroom)
      split
      · exact ⟨hr.1, le_trans (List.length_erase_le _ _) hr.2⟩
      · exact hwf.2 q hq
    · exact absurd h (by simp)

theorem wf_remove_empty {cap : Nat} {st : Rooms} (hwf : storeWF cap st) :
    storeWF cap st.remove_empty := by
  refine ⟨hwf.1, ?_⟩
  intro p hp
  exact hwf.2 p (List.mem_of_mem_filter hp)

theorem wf_routeJoin {cap : Nat} {st : Rooms} (hwf : storeWF cap st)
    (cid : Nat) (payload : PyValue) (room_id : Option Nat) :
    storeWF cap (routeJoin st cid payload room_id).store := by
  unfold routeJoin
  split
  · exact hwf
  · split
    · exact hwf
    · split
      · rename_i st2 hj
        exact wf_join hwf hj
      · exact hwf
      · exact hwf
      · exact hwf

theorem wf_routeCreate {cap : Nat} {st : Rooms} (hwf : storeWF cap st)
    (cid : Nat) (payload : PyValue) :
    storeWF cap (routeCreate st cid payload).store := by
  unfold routeCreate
  split
  rename_i rid st1 hcr
  have hwf1 : storeWF cap st1 := by
    have := wf_create hwf payload
    rwa [hcr] at this
  split
  · rename_i st2 hj
    exact wf_join hwf1 hj
  · exact hwf1

theorem wf_route {cap : Nat} {st : Rooms} (hcap : 1 ≤ cap)
    (hwf : storeWF cap st) (addr : String × Nat) (action : Option String)
    (payload : PyValue) (identifier : Option Nat) (room_id : Option Nat) :
    storeWF cap (route st addr action payload identifier room_id).store := by
  unfold route
  split
  · unfold routeRegister
    split
    · exact hwf
    · exact ⟨hwf.1, hwf.2⟩
  · split
    · exact hwf
    · split
      · exact hwf
      · split
        · exact wf_routeJoin hwf _ _ _
        · split
          · exact wf_autojoin hcap hwf _
          · split
            · exact hwf
            · split
              · exact wf_routeCreate hwf _ _
              · split
                · unfold routeLeave
                  split
                  · exact hwf
                  · split
                    · exact hwf
                    · exact hwf
                · exact hwf

theorem tcpDispatch_store (ev0 : List Event) (r : RouteResult) :
    (tcpDispatch ev0 r).store = r.store := by
  unfold tcpDispatch
  split <;> rfl

theorem wf_tcpIterCore {cap : Nat} {st0 : Rooms} (hcap : 1 ≤ cap)
    (hwf0 : storeWF cap st0) (ev0 : List Event) (addr : String × Nat)
    (msg : WireMsg) : storeWF cap (tcpIterCore st0 ev0 addr msg).store := by
  unfold tcpIterCore
  split
  · exact hwf0
  · exact hwf0
  · split
    · exact hwf0
    · rw [tcpDispatch_store]
      exact wf_route hcap hwf0 _ _ _ _ _

theorem wf_tcpIter {cap : Nat} {st : Rooms} (hcap : 1 ≤ cap)
    (hwf : storeWF cap st) (sweepDue : Bool) (addr : String × Nat)
    (msg : WireMsg) : storeWF cap (tcpIter sweepDue st addr msg).store := by
  have hwf0 : storeWF cap (if sweepDue then st.remove_empty else st) := by
    split
    · exact wf_remove_empty hwf
    · exact hwf
  exact wf_tcpIterCore hcap hwf0 _ addr msg

theorem udpIter_store (st : Rooms) (src : String × Nat) (msg : WireMsg) :
    (udpIter st src msg).store = st := by
  unfold udpIter
  split
  · rfl
  · rfl
  · split
    · rfl
    · split
      · rfl
      · rfl

theorem reachable_storeWF {cap : Nat} {st : Rooms} (hcap : 1 ≤ cap)
    (h : Reachable cap st) : storeWF cap st := by
  induction h with
  | init => exact ⟨rfl, by intro p hp; cases hp⟩
  | tcpStep sweepDue st2 addr msg _ ih => exact wf_tcpIter hcap ih sweepDue addr msg
  | udpStep st2 src msg _ ih => rw [udpIter_store]; exact ih

/-- C1: at every reachable store state (any interleaving of listener
iterations starting from a freshly constructed server with positive
capacity) no room's member count exceeds the capacity fixed at store
construction; and a join dispatched by the listener for a registered
client naming a room whose member count equals its capacity fails with
`RoomFull`, adds no member (the store is returned unchanged) and is
answered with a failure reply. -/
theorem c1_capacity_invariant (cap : Nat) (st : Rooms)
    (hcap : 1 ≤ cap) (hreach : Reachable cap st)
    (cid rid : Nat) (room : Room)
    (hr : assq rid st.rooms = some room)
    (hfull : room.players.length = room.capacity)
    (addr : String × Nat) (pay : PyValue) (rid? : Option Nat)
    (hpay : pyRoomKey pay = some rid)
    (hreg : (assq cid st.players).isSome = true) :
    (∀ p ∈ st.rooms, p.2.players.length ≤ cap) ∧
    st.join cid rid = Except.error StoreErr.roomFull ∧
    route st addr (some "join") pay (some cid) rid? =
      RouteResult.mk st
        [Event.storeMutation "join", Event.sendTcp false (rmsgOfOpt rid?)] none := by
  have hwf := reachable_storeWF hcap hreach
  have hjoin : st.join cid rid = Except.error StoreErr.roomFull := by
    unfold Rooms.join
    rw [hr]
    simp [hfull]
  refine ⟨fun p hp => (hwf.2 p hp).2, hjoin, ?_⟩
  rcases Option.isSome_iff_exists.1 hreg with ⟨c, hc⟩
  unfold route
  rw [if_neg (by simp)]
  show (if (assq cid st.players).isNone = true then _ else _) = _
  rw [hc]
  simp only [Option.isNone_some, Bool.false_eq_true, if_false, if_true]
  unfold routeJoin
  rw [hpay]
  show (if (assq rid st.rooms).isNone = true then _ else _) = _
  rw [hr]
  simp only [Option.isNone_some, Bool.false_eq_true, if_false]
  rw [hjoin]

/-- Witness for C1 at a reachable state with capacity 1: register client
0, create room 0 (the creator auto-joins, filling the room), register
client 1; client 1's join of room 0 fails with `RoomFull` and changes
nothing. -/
theorem c1_capacity_invariant_witness :
    (∀ p ∈ c1St3.rooms, p.2.players.length ≤ 1) ∧
    c1St3.join 1 0 = Except.error StoreErr.roomFull ∧
    route c1St3 ("h", 0) (some "join") (PyValue.vint 0) (some 1) (some 0) =
      RouteResult.mk c1St3
        [Event.storeMutation "join", Event.sendTcp false (rmsgOfOpt (some 0))] none := by
  have hreach : Reachable 1 c1St3 :=
    Reachable.tcpStep false c1St2 ("h", 0) c1Msg3
      (Reachable.tcpStep false c1St1 ("h", 0) c1Msg2
        (Reachable.tcpStep false (Rooms.mk 1 [] []) ("h", 0) c1Msg1 Reachable.init))
  exact c1_capacity_invariant 1 c1St3 (by decide) hreach 1 0
    (Room.mk 0 (PyValue.vstr "r") 1 [0]) (by decide) (by decide)
    ("h", 0) (PyValue.vint 0) (some 0) (by decide) (by decide)

theorem mol_tcpIterCore (st0 : Rooms) {ev0 : List Event}
    (h0 : ev0.all plainEvent = true) (addr : String × Nat) (msg : WireMsg) :
    mutationsOutsideLock 0 (tcpIterCore st0 ev0 addr msg).events =
      mutationsOutsideLock 0 ev0 := by
  unfold tcpIterCore
  split
  · rw [plain_mutationsOutsideLock_zero h0]
    simp [mutationsOutsideLock]
  · rfl
  · split
    · rw [plain_mutationsOutsideLock_zero h0]
      simp [mutationsOutsideLock]
    · unfold tcpDispatch
      split <;>
        · rw [mutationsOutsideLock_wrapLocked h0 (route_plain _ _ _ _ _ _)]
          simp [mutationsOutsideLock]

/-- C2 (code bug): the periodic sweep is the one store mutation that
runs without the shared lock.  On a sweep-due control-plane iteration
`remove_empty` executes at lock depth 0 — the accept loop invokes the
sweep (source line 194) before `lock.acquire` (line 222) — so it can
overlap a concurrent data-plane store operation, against the claim's
(and the spec's) single lock domain; every other store invocation, on
both planes and on every input, runs with the lock held. -/
theorem c2_sweep_runs_outside_lock :
    mutationsOutsideLock 0
      (tcpIter true (Rooms.mk 4 [(0, Room.mk 0 (PyValue.vstr "r") 4 [])] [])
        ("h", 0) WireMsg.notJson).events = ["remove_empty"] ∧
    ∀ (sweepDue : Bool) (st : Rooms) (addr : String × Nat) (msg : WireMsg)
      (st2 : Rooms) (src : String × Nat) (msg2 : WireMsg),
      mutationsOutsideLock 0 (tcpIter sweepDue st addr msg).events =
        (if sweepDue then ["remove_empty"] else []) ∧
      mutationsOutsideLock 0 (udpIter st2 src msg2).events = [] := by
  constructor
  · decide
  · intro sweepDue st addr msg st2 src msg2
    constructor
    · unfold tcpIter
      rw [mol_tcpIterCore]
      · cases sweepDue <;> rfl
      · cases sweepDue <;> rfl
    · unfold udpIter
      split
      · rfl
      · rfl
      · split
        · rfl
        · split
          · rfl
          · rw [mutationsOutsideLock_wrapLocked (by rfl) (udpInner_plain _ _ _ _ _)]
            rfl

theorem scan_tcpIterCore (st0 : Rooms) {ev0 : List Event}
    (h0 : ev0.all noLockEvent = true) (addr : String × Nat) (msg : WireMsg) :
    lockScan 0 (tcpIterCore st0 ev0 addr msg).events = some 0 := by
  unfold tcpIterCore
  split
  · rw [noLock_lockScan h0]
    rfl
  · exact noLock_lockScan_nil h0 0
  · split
    · rw [noLock_lockScan h0]
      rfl
    · unfold tcpDispatch
      split <;>
        exact lockScan_wrapLocked h0
          (plain_all_noLock (route_plain _ _ _ _ _ _)) (by rfl)

/-- C10: every listener iteration's trace is lock-balanced — each
acquisition is matched by a release (performed in a `finally`, hence
also on every raising path) and the lock ends released, on both the
control plane and the data plane, for every input. -/
theorem c10_lock_always_released (sweepDue : Bool) (st : Rooms)
    (addr : String × Nat) (msg : WireMsg) (st2 : Rooms) (src : String × Nat)
    (msg2 : WireMsg) :
    lockScan 0 (tcpIter sweepDue st addr msg).events = some 0 ∧
    lockScan 0 (udpIter st2 src msg2).events = some 0 := by
  constructor
  · unfold tcpIter
    apply scan_tcpIterCore
    cases sweepDue <;> rfl
  · unfold udpIter
    split
    · rfl
    · rfl
    · split
      · rfl
      · split
        · rfl
        · exact lockScan_wrapLocked (by rfl)
            (plain_all_noLock (udpInner_plain _ _ _ _ _)) (by rfl)

theorem tcpIterCore_close_iff (st0 : Rooms) {ev0 : List Event}
    (h0 : ev0.all plainEvent = true) (addr : String × Nat) (msg : WireMsg) :
    ((tcpIterCore st0 ev0 addr msg).raised = none ↔
      Event.connClose ∈ (tcpIterCore st0 ev0 addr msg).events) := by
  unfold tcpIterCore
  split
  · simp
  · constructor
    · intro h
      exact absurd h (by simp)
    · intro hmem
      exact absurd hmem (plain_not_connClose h0)
  · split
    · simp
    · unfold tcpDispatch
      split
      · simp [wrapLocked]
      · simp [wrapLocked]
      · simp [wrapLocked]
      · constructor
        · intro h
          exact absurd h (by simp)
        · intro hmem
          rcases connClose_mem_wrapLocked.1 hmem with h | h | h
          · exact absurd h (plain_not_connClose h0)
          · exact absurd h (plain_not_connClose (route_plain _ _ _ _ _ _))
          · cases h

/-- C6 counterexample: a `leave` request from a registered client for an
existing room makes the dispatch raise `UnboundLocalError`, which is not
caught by the accept loop, so `conn.close()` is never reached — the
connection is not closed. -/
theorem c6_counterexample :
    Event.connClose ∉
      (tcpIter false
        (Rooms.mk 1 [(0, Room.mk 0 (PyValue.vstr "r") 1 [0])]
          [(0, Client.mk 0 ("h", 0) (some 0))]) ("h", 0)
        (WireMsg.envelope (some "leave") (some 0) (some 0) PyValue.vnone)).events := by
  decide

/-- C6 amended: the connection is closed exactly when no exception
escapes the iteration uncaught — on success, on failure replies, and
when dispatch raises `KeyError` or `ValueError`; an exception of any
other class (for example `UnboundLocalError` or `AttributeError`) skips
the close. -/
theorem c6_amended_close_iff_no_uncaught (sweepDue : Bool) (st : Rooms)
    (addr : String × Nat) (msg : WireMsg) :
    ((tcpIter sweepDue st addr msg).raised = none ↔
      Event.connClose ∈ (tcpIter sweepDue st addr msg).events) := by
  unfold tcpIter
  exact tcpIterCore_close_iff _ (by cases sweepDue <;> rfl) _ _

/-- C3 (code bug): with client 0 registered and a member of existing
room 0, a `leave` request passes the room check and then evaluates
`rooms.leave` — but `rooms` is a local name only assigned in the
`get_rooms` branch, so the dispatch raises `UnboundLocalError`: the
store is unchanged, no reply is sent and the connection is not closed.
The store's own `leave` (second conjunct) would have succeeded, removing
the membership and clearing the client's room reference as the claim
describes. -/
theorem c3_leave_raises_unbound_local :
    (tcpIter false
        (Rooms.mk 1 [(0, Room.mk 0 (PyValue.vstr "r") 1 [0])]
          [(0, Client.mk 0 ("h", 0) (some 0))]) ("h", 0)
        (WireMsg.envelope (some "leave") (some 0) (some 0) PyValue.vnone)) =
      IterResult.mk
        (Rooms.mk 1 [(0, Room.mk 0 (PyValue.vstr "r") 1 [0])]
          [(0, Client.mk 0 ("h", 0) (some 0))])
        [Event.lockAcquire, Event.lockRelease]
        (some PyExn.unboundLocalError) ∧
    (Rooms.mk 1 [(0, Room.mk 0 (PyValue.vstr "r") 1 [0])]
        [(0, Client.mk 0 ("h", 0) (some 0))]).leave 0 0 =
      Except.ok
        (Rooms.mk 1 [(0, Room.mk 0 (PyValue.vstr "r") 1 [])]
          [(0, Client.mk 0 ("h", 0) none)]) := by decide

/-- C7 (code bug): a request from a registered client with an action
outside the dispatch table reaches the fallback arm, which calls
`sock.send_tcp` — sockets have no `send_tcp` method — so the dispatch
raises `AttributeError`: no failure reply is sent (and the connection is
not closed). -/
theorem c7_unknown_action_raises_attribute_error :
    (tcpIter false (Rooms.mk 4 [] [(0, Client.mk 0 ("h", 0) none)]) ("h", 0)
        (WireMsg.envelope (some "dance") (some 0) none PyValue.vnone)) =
      IterResult.mk (Rooms.mk 4 [] [(0, Client.mk 0 ("h", 0) none)])
        [Event.lockAcquire, Event.lockRelease]
        (some PyExn.attributeError) := by decide

/-- C4 counterexample: a non-`register` request with an absent
identifier is not rejected — the listener sends no reply at all (the
trace holds no `sendTcp` or `sockSend` event), against the claim that a
structured failure reply is sent. -/
theorem c4_counterexample :
    (tcpIter false (Rooms.mk 4 [] []) ("h", 0)
        (WireMsg.envelope (some "join") none none (PyValue.vint 0))) =
      IterResult.mk (Rooms.mk 4 [] [])
        [Event.lockAcquire, Event.lockRelease, Event.connClose] none := by decide

/-- C4 amended: for a non-`register` action, a request whose identifier
is present but names no registered client is answered with a failure
reply before any store dispatch (the store is unchanged and the only
event is the reply); a request whose identifier is absent is silently
ignored — no reply, no store operation, nothing raised. -/
theorem c4_amended_unknown_identifier_rejected (st : Rooms)
    (addr : String × Nat) (act : String) (pay : PyValue) (rid? : Option Nat)
    (hact : act ≠ "register") :
    (∀ cid, assq cid st.players = none →
      route st addr (some act) pay (some cid) rid? =
        RouteResult.mk st [Event.sockSend "Unknown identifier"] none) ∧
    route st addr (some act) pay none rid? = RouteResult.mk st [] none := by
  constructor
  · intro cid hcid
    unfold route
    rw [if_neg (by simpa using hact)]
    show (if (assq cid st.players).isNone = true then _ else _) = _
    rw [hcid]
    rfl
  · unfold route
    rw [if_neg (by simpa using hact)]

/-- Witness for C4 amended: on an empty store, a `join` with the
unregistered identifier 7 is answered with the failure reply and no
store dispatch. -/
theorem c4_amended_witness :
    route (Rooms.mk 4 [] []) ("h", 0) (some "join") (PyValue.vint 0) (some 7)
        none =
      RouteResult.mk (Rooms.mk 4 [] []) [Event.sockSend "Unknown identifier"]
        none :=
  (c4_amended_unknown_identifier_rejected (Rooms.mk 4 [] []) ("h", 0) "join"
    (PyValue.vint 0) none (by decide)).1 7 (by decide)

/-- C5 counterexample: a `register` request whose payload is the string
"abc" makes `int(payload)` raise `ValueError` before any store call —
nothing is registered and no success reply is sent, against the claim
that register never fails whatever the payload.  (The accept loop then
answers the generic malformed-message text instead.) -/
theorem c5_counterexample :
    route (Rooms.mk 4 [] []) ("h", 0) (some "register") (PyValue.vstr "abc")
        none none =
      RouteResult.mk (Rooms.mk 4 [] []) [] (some PyExn.valueError) := by decide

/-- C5 amended: a `register` request succeeds exactly when
`int(payload)` converts: the store then allocates a fresh session
identifier (not previously registered), records the caller's address,
and the listener replies success carrying the new identifier; when the
conversion raises, the exception propagates out of `route` with nothing
registered and no reply. -/
theorem c5_amended_register_succeeds_on_int_payload (st : Rooms)
    (addr : String × Nat) (pay : PyValue) (idf : Option Nat)
    (rid? : Option Nat) :
    (∀ n, pyToInt pay = Except.ok n →
      assq (freshKey (st.players.map (fun p => p.1))) st.players = none ∧
      route st addr (some "register") pay idf rid? =
        RouteResult.mk
          (Rooms.mk st.capacity st.rooms
            ((freshKey (st.players.map (fun p => p.1)),
              Client.mk (freshKey (st.players.map (fun p => p.1))) addr none) ::
              st.players))
          [Event.storeMutation "register",
           Event.sendTcp true
             (ReplyMsg.rnat (freshKey (st.players.map (fun p => p.1))))]
          none) ∧
    (∀ e, pyToInt pay = Except.error e →
      route st addr (some "register") pay idf rid? =
        RouteResult.mk st [] (some e)) := by
  constructor
  · intro n hn
    refine ⟨assq_freshKey _, ?_⟩
    unfold route
    rw [if_pos rfl]
    unfold routeRegister
    rw [hn]
    rfl
  · intro e he
    unfold route
    rw [if_pos rfl]
    unfold routeRegister
    rw [he]

/-- Witness for C5 amended: on an empty store an integer payload
registers fresh client 0 and replies success with it; the payload "x"
raises `ValueError` and registers nothing. -/
theorem c5_amended_witness :
    (route (Rooms.mk 4 [] []) ("h", 0) (some "register") (PyValue.vint 7)
        none none =
      RouteResult.mk (Rooms.mk 4 [] [(0, Client.mk 0 ("h", 0) none)])
        [Event.storeMutation "register", Event.sendTcp true (ReplyMsg.rnat 0)]
        none) ∧
    (route (Rooms.mk 4 [] []) ("h", 0) (some "register") (PyValue.vstr "x")
        none none =
      RouteResult.mk (Rooms.mk 4 [] []) [] (some PyExn.valueError)) :=
  ⟨((c5_amended_register_succeeds_on_int_payload (Rooms.mk 4 [] []) ("h", 0)
      (PyValue.vint 7) none none).1 7 rfl).2,
   (c5_amended_register_succeeds_on_int_payload (Rooms.mk 4 [] []) ("h", 0)
      (PyValue.vstr "x") none none).2 PyExn.valueError (by decide)⟩

theorem send_dests {st : Rooms} {sid rid : Nat} {m : PyPrim}
    {ds : List ((String × Nat) × PyPrim)}
    (h : st.send sid rid m = Except.ok ds) :
    ∀ d ∈ ds, ∃ pid c, pid ≠ sid ∧ assq pid st.players = some c ∧
      d.1 = c.udp_addr := by
  unfold Rooms.send at h
  split at h
  · exact absurd h (by simp)
  · split at h
    · split at h
      · exact absurd h (by simp)
      · cases h
        intro d hd
        rcases List.mem_filterMap.1 hd with ⟨pid, hpid, hmap⟩
        rcases Option.map_eq_some'.1 hmap with ⟨c, hc, hdc⟩
        have hpid2 := List.mem_filter.1 hpid
        refine ⟨pid, c, ?_, hc, ?_⟩
        · simpa using hpid2.2
        · rw [← hdc]
    · exact absurd h (by simp)

theorem sendto_dests {st : Rooms} {sid rid : Nat} {recips : List Nat}
    {m : PyPrim} {ds : List ((String × Nat) × PyPrim)}
    (h : st.sendto sid rid recips m = Except.ok ds) :
    ∀ d ∈ ds, ∃ pid c, pid ≠ sid ∧ assq pid st.players = some c ∧
      d.1 = c.udp_addr := by
  unfold Rooms.sendto at h
  split at h
  · exact absurd h (by simp)
  · split at h
    · split at h
      · exact absurd h (by simp)
      · cases h
        intro d hd
        rcases List.mem_filterMap.1 hd with ⟨pid, hpid, hmap⟩
        rcases Option.map_eq_some'.1 hmap with ⟨c, hc, hdc⟩
        have hpid2 := List.mem_filter.1 hpid
        have hne : pid ≠ sid := by
          have hb := hpid2.2
          simp only [Bool.and_eq_true] at hb
          simpa using hb.1
        refine ⟨pid, c, hne, hc, ?_⟩
        rw [← hdc]
    · exact absurd h (by simp)

theorem deliversAvoid_eq_true {src : String × Nat} {es : List Event}
    (h : ∀ a m, Event.deliver a m ∈ es → a ≠ src) :
    deliversAvoid src es = true := by
  unfold deliversAvoid
  rw [List.all_eq_true]
  intro e he
  cases e with
  | deliver a m =>
      have := h a m he
      simpa [avoidsAddr, bne] using this
  | lockAcquire => rfl
  | lockRelease => rfl
  | storeMutation n => rfl
  | sendTcp b mm => rfl
  | sockSend t => rfl
  | logMsg t => rfl
  | connClose => rfl

theorem udpInner_avoid {st : Rooms} {act : Option String} {idf : Option Nat}
    {r : Nat} {pay : PyValue} {src : String × Nat}
    (h : ∀ p ∈ st.players, p.2.udp_addr = src → some p.1 = idf) :
    ∀ a m, Event.deliver a m ∈ udpInner st act idf r pay → a ≠ src := by
  intro a m hmem hasrc
  unfold udpInner at hmem
  split at hmem
  · split at hmem
    · cases hmem
    · rcases List.mem_cons.1 hmem with heq | hmem2
      · simp at heq
      · split at hmem2
        · cases hmem2
        · split at hmem2
          · cases hmem2
          · rename_i ds hds
            rcases List.mem_map.1 hmem2 with ⟨d, hd, hdeq⟩
            rcases send_dests hds d hd with ⟨pid, c, hne, hc, hdc⟩
            injection hdeq with h1 h2
            have h3 : c.udp_addr = src := by
              rw [← hdc, h1, hasrc]
            have h4 := h (pid, c) (assq_mem hc) h3
            exact hne (Option.some.inj h4)
  · split at hmem
    · split at hmem
      · rcases List.mem_cons.1 hmem with heq | hmem2
        · simp at heq
        · split at hmem2
          · split at hmem2
            · cases hmem2
            · rename_i ds hds
              rcases List.mem_map.1 hmem2 with ⟨d, hd, hdeq⟩
              rcases sendto_dests hds d hd with ⟨pid, c, hne, hc, hdc⟩
              injection hdeq with h1 h2
              have h3 : c.udp_addr = src := by
                rw [← hdc, h1, hasrc]
              have h4 := h (pid, c) (assq_mem hc) h3
              exact hne (Option.some.inj h4)
          all_goals cases hmem2
      · cases hmem
    · cases hmem

/-- C8: the data-plane listener never transmits bytes to the sender of a
datagram (fire-and-forget).  For every datagram — well-formed relay
request, domain error or malformed envelope alike — every transmitted
delivery targets the stored address of a room member other than the
sender, so under the hypothesis that no client other than the one named
by the envelope's identifier registered the datagram's source address,
no delivery goes to that source address. -/
theorem c8_no_bytes_to_sender (st : Rooms) (src : String × Nat)
    (act : Option String) (idf : Option Nat) (rid : Option Nat) (pay : PyValue)
    (h : ∀ p ∈ st.players, p.2.udp_addr = src → some p.1 = idf) :
    deliversAvoid src
      (udpIter st src (WireMsg.envelope act idf rid pay)).events = true ∧
    deliversAvoid src (udpIter st src WireMsg.notJson).events = true ∧
    deliversAvoid src (udpIter st src WireMsg.jsonNonDict).events = true := by
  refine ⟨?_, rfl, rfl⟩
  cases rid with
  | none => rfl
  | some r =>
      show deliversAvoid src
        (if (assq r st.rooms).isNone = true
          then IterResult.mk st [Event.logMsg "Room not found"] none
          else IterResult.mk st
            (wrapLocked [] (udpInner st act idf r pay) []) none).events = true
      split
      · rfl
      · apply deliversAvoid_eq_true
        intro a m hmem
        have hmem2 : Event.deliver a m ∈ udpInner st act idf r pay := by
          simpa [wrapLocked] using hmem
        exact udpInner_avoid h a m hmem2

/-- Witness for C8: client 0 (stored address ("a", 1)) broadcasts to a
two-member room from its own address; no delivery targets ("a", 1). -/
theorem c8_no_bytes_to_sender_witness :
    deliversAvoid ("a", 1)
      (udpIter c8St ("a", 1)
        (WireMsg.envelope (some "send") (some 0) (some 0) c8Pay)).events = true :=
  (c8_no_bytes_to_sender c8St ("a", 1) (some "send") (some 0) (some 0) c8Pay
    (by decide)).1

theorem logsOf_map_deliver (ds : List ((String × Nat) × PyPrim)) :
    logsOf (ds.map (fun d => Event.deliver d.1 d.2)) = [] := by
  induction ds with
  | nil => rfl
  | cons d ds ih =>
      show logsOf (Event.deliver d.1 d.2 :: _) = []
      simp only [logsOf, List.filterMap_cons, logOf]
      exact ih

theorem udpInner_no_log (st : Rooms) (act : Option String) (idf : Option Nat)
    (r : Nat) (pay : PyValue) :
    logsOf (udpInner st act idf r pay) = [] := by
  unfold udpInner
  split
  · split
    · rfl
    · show logsOf (Event.storeMutation "send" :: _) = []
      simp only [logsOf, List.filterMap_cons, logOf]
      show List.filterMap logOf _ = []
      split
      · rfl
      · split
        · rfl
        · exact logsOf_map_deliver _
  · split
    · split
      · show logsOf (Event.storeMutation "sendto" :: _) = []
        simp only [logsOf, List.filterMap_cons, logOf]
        show List.filterMap logOf _ = []
        split
        · split
          · rfl
          · exact logsOf_map_deliver _
        · rfl
      · rfl
    · rfl

theorem send_unknown {st : Rooms} {sid : Nat} (rid : Nat) (m : PyPrim)
    (h : assq sid st.players = none) :
    st.send sid rid m = Except.error StoreErr.unknownClient := by
  unfold Rooms.send
  rw [h]

theorem sendto_unknown {st : Rooms} {sid : Nat} (rid : Nat)
    (recips : List Nat) (m : PyPrim) (h : assq sid st.players = none) :
    st.sendto sid rid recips m = Except.error StoreErr.unknownClient := by
  unfold Rooms.sendto
  rw [h]

theorem udpInner_no_deliver_unknown {st : Rooms} {act : Option String}
    {idf : Option Nat} {r : Nat} {pay : PyValue}
    (hs : ∀ i, idf = some i → assq i st.players = none) :
    deliveries (udpInner st act idf r pay) = [] := by
  unfold udpInner
  split
  · split
    · rfl
    · show deliveries (Event.storeMutation "send" :: _) = []
      simp only [deliveries, List.filterMap_cons, deliverOf]
      show List.filterMap deliverOf _ = []
      split
      · rfl
      · rename_i sid
        split
        · rfl
        · rename_i ds hds
          rw [send_unknown _ _ (hs sid rfl)] at hds
          cases hds
  · split
    · split
      · show deliveries (Event.storeMutation "sendto" :: _) = []
        simp only [deliveries, List.filterMap_cons, deliverOf]
        show List.filterMap deliverOf _ = []
        split
        · rename_i sid rs hrs
          split
          · rfl
          · rename_i ds hds
            rw [sendto_unknown _ _ _ (hs sid rfl)] at hds
            cases hds
        · rfl
      · rfl
    · rfl

theorem logsOf_wrap (inner : List Event) :
    logsOf (wrapLocked [] inner []) = logsOf inner := by
  show logsOf (Event.lockAcquire :: (inner ++ [Event.lockRelease])) = _
  simp [logsOf, logOf, List.filterMap_append]

theorem deliveries_wrap (inner : List Event) :
    deliveries (wrapLocked [] inner []) = deliveries inner := by
  show deliveries (Event.lockAcquire :: (inner ++ [Event.lockRelease])) = _
  simp [deliveries, deliverOf, List.filterMap_append]

/-- C9 counterexample: a relay datagram naming the existing room 0 but
the unknown sender identity 99 is dropped with NO log line (the store
call's failure is swallowed by a blanket `except: pass`), against the
claim that such datagrams are dropped "with a log message"; and a
datagram that is valid JSON but not a mapping raises an uncaught
`TypeError` — fatal to the listener — against the claim that a malformed
envelope is never fatal. -/
theorem c9_counterexample :
    logsOf (udpIter c9St ("x", 9)
      (WireMsg.envelope (some "send") (some 99) (some 0) c9Pay)).events = [] ∧
    (udpIter c9St ("x", 9) WireMsg.jsonNonDict).raised =
      some PyExn.typeError := by decide

/-- C9 amended: no datagram ever mutates the store; non-JSON input and
unknown (or absent) rooms are dropped with a log line and nothing
raised; a datagram with a known room but unknown sender identity is
dropped silently — no log, no delivery, nothing raised; but valid JSON
that is not a mapping raises an uncaught `TypeError`, killing the
listener. -/
theorem c9_amended_bad_datagrams_dropped (st : Rooms) (src : String × Nat) :
    (∀ msg, (udpIter st src msg).store = st) ∧
    (udpIter st src WireMsg.notJson =
      IterResult.mk st [Event.logMsg "Message is not a valid json string"] none) ∧
    (∀ act idf pay, udpIter st src (WireMsg.envelope act idf none pay) =
      IterResult.mk st [Event.logMsg "Room not found"] none) ∧
    (∀ act idf pay r, assq r st.rooms = none →
      udpIter st src (WireMsg.envelope act idf (some r) pay) =
        IterResult.mk st [Event.logMsg "Room not found"] none) ∧
    (∀ act idf pay r, (assq r st.rooms).isSome = true →
      (∀ i, idf = some i → assq i st.players = none) →
      logsOf (udpIter st src (WireMsg.envelope act idf (some r) pay)).events = [] ∧
      deliveries (udpIter st src (WireMsg.envelope act idf (some r) pay)).events = [] ∧
      (udpIter st src (WireMsg.envelope act idf (some r) pay)).raised = none) ∧
    (udpIter st src WireMsg.jsonNonDict).raised = some PyExn.typeError := by
  refine ⟨udpIter_store st src, rfl, fun act idf pay => rfl, ?_, ?_, rfl⟩
  · intro act idf pay r hr
    show (if (assq r st.rooms).isNone = true
        then IterResult.mk st [Event.logMsg "Room not found"] none
        else IterResult.mk st
          (wrapLocked [] (udpInner st act idf r pay) []) none) = _
    rw [hr]
    rfl
  · intro act idf pay r hr hs
    rcases Option.isSome_iff_exists.1 hr with ⟨room, hroom⟩
    have hiter : udpIter st src (WireMsg.envelope act idf (some r) pay) =
        IterResult.mk st (wrapLocked [] (udpInner st act idf r pay) []) none := by
      show (if (assq r st.rooms).isNone = true
          then IterResult.mk st [Event.logMsg "Room not found"] none
          else IterResult.mk st
            (wrapLocked [] (udpInner st act idf r pay) []) none) = _
      rw [hroom]
      rfl
    rw [hiter]
    refine ⟨?_, ?_, rfl⟩
    · show logsOf (wrapLocked [] (udpInner st act idf r pay) []) = []
      rw [logsOf_wrap]
      exact udpInner_no_log st act idf r pay
    · show deliveries (wrapLocked [] (udpInner st act idf r pay) []) = []
      rw [deliveries_wrap]
      exact udpInner_no_deliver_unknown hs

/-- Witness for C9 amended: the unknown sender 99's datagram to the
existing room 0 keeps the store, produces neither log nor delivery and
raises nothing; the same datagram without a room is dropped with the
"Room not found" log. -/
theorem c9_amended_witness :
    (udpIter c9St ("x", 9)
        (WireMsg.envelope (some "send") (some 99) (some 0) c9Pay)).store = c9St ∧
    logsOf (udpIter c9St ("x", 9)
        (WireMsg.envelope (some "send") (some 99) (some 0) c9Pay)).events = [] ∧
    deliveries (udpIter c9St ("x", 9)
        (WireMsg.envelope (some "send") (some 99) (some 0) c9Pay)).events = [] ∧
    (udpIter c9St ("x", 9)
        (WireMsg.envelope (some "send") (some 99) (some 0) c9Pay)).raised = none ∧
    udpIter c9St ("x", 9) (WireMsg.envelope (some "send") (some 99) none c9Pay) =
      IterResult.mk c9St [Event.logMsg "Room not found"] none := by
  have h := c9_amended_bad_datagrams_dropped c9St ("x", 9)
  have h5 := h.2.2.2.2.1 (some "send") (some 99) c9Pay 0 (by decide)
    (by intro i hi; cases hi; rfl)
  exact ⟨h.1 _, h5.1, h5.2.1, h5.2.2, h.2.2.1 (some "send") (some 99) c9Pay⟩
